import Mathlib

/-!
Shallow embedding of the CCD-Wrapper dispatch layer (src/ccd.hpp, src/ccd.cpp).

The repository wraps many third-party continuous-collision-detection (CCD)
backends behind four dispatcher entry points (vertex-face and edge-edge, exact
and minimum-separation), duplicated for double and float precision.  The
backends themselves are external libraries, out of scope here; we model each
backend invocation as an abstract oracle that either returns a value or throws
a C++ exception.  Scalars (C++ `double`/`float`) are modelled as rationals:
every claim under study concerns control flow, argument routing and
comparisons, never rounding.  A C++ enum value is modelled as a natural
number, so that out-of-enumeration selector values (NUM_CCD_METHODS and
beyond) are representable, as they are in C++.
-/

namespace ccd

/-- A 3-component coordinate tuple (Eigen::Vector3d / Vector3f). -/
structure Vec3 where
  x : ℚ
  y : ℚ
  z : ℚ
deriving DecidableEq, Repr

/-- Eigen::Array3d / Array3f rounding-error bound: same 3 components. -/
abbrev Arr3 := Vec3

/-- C++ `enum CCDMethod` values are integers; we model the selector as Nat so
out-of-range values (NUM_CCD_METHODS and beyond) exist in the model. -/
abbrev CCDMethod := Nat

def FLOATING_POINT_ROOT_FINDER : CCDMethod := 0

def MIN_SEPARATION_ROOT_FINDER : CCDMethod := 1

def ROOT_PARITY : CCDMethod := 2

def RATIONAL_ROOT_PARITY : CCDMethod := 3

def FLOATING_POINT_ROOT_PARITY : CCDMethod := 4

def RATIONAL_FIXED_ROOT_PARITY : CCDMethod := 5

def BSC : CCDMethod := 6

def TIGHT_CCD : CCDMethod := 7

def SAFE_CCD : CCDMethod := 8

def UNIVARIATE_INTERVAL_ROOT_FINDER : CCDMethod := 9

def MULTIVARIATE_INTERVAL_ROOT_FINDER : CCDMethod := 10

def TIGHT_INCLUSION : CCDMethod := 11

def NUM_CCD_METHODS : CCDMethod := 12

/-- `static const char* method_names[NUM_CCD_METHODS]` (ccd.hpp): a 12-entry
name table indexed by the method selector. -/
def method_names : List String :=
  [ "FloatingPointRootFinder"
  , "MinSeparationRootFinder"
  , "RootParity"
  , "RationalRootParity"
  , "FloatingPointRootParity"
  , "RationalFixedRootParity"
  , "BSC"
  , "TightCCD"
  , "SafeCCD"
  , "UnivariateIntervalRootFinder"
  , "MultivariateIntervalRootFinder"
  , "TightInclusion" ]

/-- `static const double DEFAULT_MIN_DISTANCE = 1e-8` (ccd.hpp). -/
def DEFAULT_MIN_DISTANCE : ℚ := 1 / 100000000

/-- ccd.hpp `is_minimum_separation_method`: switch on the method selector. -/
def is_minimum_separation_method (method : CCDMethod) : Bool :=
  if method = MIN_SEPARATION_ROOT_FINDER then true
  else if method = TIGHT_INCLUSION then true
  else false

/-- ccd.hpp `is_conservative_method`: switch on the method selector. -/
def is_conservative_method (method : CCDMethod) : Bool :=
  if method = MIN_SEPARATION_ROOT_FINDER then true
  else if method = TIGHT_CCD then true
  else if method = UNIVARIATE_INTERVAL_ROOT_FINDER then true
  else if method = MULTIVARIATE_INTERVAL_ROOT_FINDER then true
  else if method = TIGHT_INCLUSION then true
  else false

/-- ccd.hpp `is_time_of_impact_computed`: switch on the method selector. -/
def is_time_of_impact_computed (method : CCDMethod) : Bool :=
  if method = FLOATING_POINT_ROOT_FINDER then true
  else if method = MIN_SEPARATION_ROOT_FINDER then true
  else if method = UNIVARIATE_INTERVAL_ROOT_FINDER then true
  else if method = MULTIVARIATE_INTERVAL_ROOT_FINDER then true
  else if method = TIGHT_INCLUSION then true
  else false

/-- The build-time backend availability macros (`CCD_WRAPPER_WITH_*` and
`TIGHT_INCLUSION_WITH_DOUBLE_PRECISION`), modelled as a record of booleans so
statements can quantify over all build configurations. -/
structure BuildConfig where
  CCD_WRAPPER_WITH_FPRF : Bool
  CCD_WRAPPER_WITH_MSRF : Bool
  CCD_WRAPPER_WITH_RP : Bool
  CCD_WRAPPER_WITH_RRP : Bool
  CCD_WRAPPER_WITH_FPRP : Bool
  CCD_WRAPPER_WITH_RFRP : Bool
  CCD_WRAPPER_WITH_BSC : Bool
  CCD_WRAPPER_WITH_TIGHT_CCD : Bool
  CCD_WRAPPER_WITH_SAFE_CCD : Bool
  CCD_WRAPPER_WITH_INTERVAL : Bool
  CCD_WRAPPER_WITH_TIGHT_INCLUSION : Bool
  TIGHT_INCLUSION_WITH_DOUBLE_PRECISION : Bool
deriving DecidableEq, Repr

/-- ccd.hpp `is_method_enabled`: switch mapping each method to its build flag. -/
def is_method_enabled (cfg : BuildConfig) (method : CCDMethod) : Bool :=
  if method = FLOATING_POINT_ROOT_FINDER then cfg.CCD_WRAPPER_WITH_FPRF
  else if method = MIN_SEPARATION_ROOT_FINDER then cfg.CCD_WRAPPER_WITH_MSRF
  else if method = ROOT_PARITY then cfg.CCD_WRAPPER_WITH_RP
  else if method = RATIONAL_ROOT_PARITY then cfg.CCD_WRAPPER_WITH_RRP
  else if method = FLOATING_POINT_ROOT_PARITY then cfg.CCD_WRAPPER_WITH_FPRP
  else if method = RATIONAL_FIXED_ROOT_PARITY then cfg.CCD_WRAPPER_WITH_RFRP
  else if method = BSC then cfg.CCD_WRAPPER_WITH_BSC
  else if method = TIGHT_CCD then cfg.CCD_WRAPPER_WITH_TIGHT_CCD
  else if method = SAFE_CCD then cfg.CCD_WRAPPER_WITH_SAFE_CCD
  else if method = UNIVARIATE_INTERVAL_ROOT_FINDER then cfg.CCD_WRAPPER_WITH_INTERVAL
  else if method = MULTIVARIATE_INTERVAL_ROOT_FINDER then cfg.CCD_WRAPPER_WITH_INTERVAL
  else if method = TIGHT_INCLUSION then cfg.CCD_WRAPPER_WITH_TIGHT_INCLUSION
  else false

/-- A value thrown by C++ code inside the dispatchers: either a `const char*`
message (caught by `catch (const char* err)`) or anything else (caught by
`catch (...)`). -/
inductive CppExc where
  | msg : String → CppExc
  | other : CppExc
deriving DecidableEq, Repr

/-- The cause text a catch handler reports for a thrown value: the message of
a `const char*` throw, or the fixed "unknown reason" text of `catch (...)`. -/
def excCause : CppExc → String
  | .msg s => s
  | .other => "unknown reason"

/-- One diagnostic record written to stderr by a catch handler: the method
name (looked up in `method_names`; `none` models the out-of-bounds read
`method_names[method]` performed when the selector is past the table) and the
failure cause. -/
structure Diag where
  methodName : Option String
  cause : String
deriving DecidableEq, Repr

/-- The diagnostic record a catch handler emits for method `m` and thrown
value `e`. -/
def mkDiag (m : CCDMethod) (e : CppExc) : Diag :=
  ⟨method_names.get? m, excCause e⟩

/-- The try/catch boundary shared by every double-precision entry point and
by the float minimum-separation entry points: a normal return passes through;
any thrown value is converted to the conservative answer `true` plus a single
diagnostic record. -/
def guardFail (m : CCDMethod) (body : Except CppExc (Bool × List Diag)) :
    Bool × List Diag :=
  match body with
  | .ok r => r
  | .error e => (true, [mkDiag m e])

example : is_minimum_separation_method TIGHT_INCLUSION = true := by decide

example : is_method_enabled ⟨false, false, false, false, false, false, false,
    false, false, false, false, false⟩ ROOT_PARITY = false := by decide

/-- A function taking the eight characteristic points of a query (four at the
start of the step, four at the end). -/
abbrev Pts8 (α : Type) :=
  Vec3 → Vec3 → Vec3 → Vec3 → Vec3 → Vec3 → Vec3 → Vec3 → α

/-- The double-precision third-party backends, as black-box oracles.  Each
field is one external call site of ccd.cpp; the result is `Except` because a
backend may throw.  Calls that write a time of impact through a reference
parameter return it as the second component.  The SafeCCD call sequence
(`calculate_B`, `Set_Coefficients`, `Vertex_Triangle_CCD` / `Edge_Edge_CCD`)
is abstracted as a single oracle on the eight points in the interleaved
start/end order in which ccd.cpp copies them into its local arrays.
`ticcd_default_Array3` stands for the value of a default-constructed
`ticcd::Array3` (edgeEdgeMSCCD declares a local `err` that shadows the
caller's rounding-error argument). -/
structure Backends where
  ctcd_vertexFaceCTCD : Pts8 (ℚ → Except CppExc (Bool × ℚ))
  ctcd_edgeEdgeCTCD : Pts8 (ℚ → Except CppExc (Bool × ℚ))
  rootparity_run_test : Pts8 (Bool → Except CppExc Bool)
  eccd_vertexFaceCCD : Pts8 (Except CppExc Bool)
  eccd_edgeEdgeCCD : Pts8 (Except CppExc Bool)
  doubleccd_vertexFaceCCD : Pts8 (Except CppExc Bool)
  doubleccd_edgeEdgeCCD : Pts8 (Except CppExc Bool)
  rfrp_vertexFaceCCD : Pts8 (Except CppExc Bool)
  rfrp_edgeEdgeCCD : Pts8 (Except CppExc Bool)
  bsc_Intersect_VF_robust : Pts8 (Except CppExc Bool)
  bsc_Intersect_EE_robust : Pts8 (Except CppExc Bool)
  tightbound_Intersect_VF_robust : Pts8 (Except CppExc Bool)
  tightbound_Intersect_EE_robust : Pts8 (Except CppExc Bool)
  safe_Vertex_Triangle_CCD : Pts8 (Except CppExc Bool)
  safe_Edge_Edge_CCD : Pts8 (Except CppExc Bool)
  interval_vertexFaceCCD_Redon : Pts8 (Except CppExc (Bool × ℚ))
  interval_vertexFaceCCD_Interval : Pts8 (Except CppExc (Bool × ℚ))
  interval_edgeEdgeCCD_Redon : Pts8 (Except CppExc (Bool × ℚ))
  interval_edgeEdgeCCD_Interval : Pts8 (Except CppExc (Bool × ℚ))
  msccd_rf_vertexFaceMSCCD : Pts8 (ℚ → Except CppExc (Bool × ℚ))
  msccd_rf_edgeEdgeMSCCD : Pts8 (ℚ → Except CppExc (Bool × ℚ))
  ticcd_vertexFaceCCD : Pts8 (Arr3 → ℚ → ℚ → ℚ → Int → Int → Except CppExc (Bool × ℚ))
  ticcd_edgeEdgeCCD : Pts8 (Arr3 → ℚ → ℚ → ℚ → Int → Int → Except CppExc (Bool × ℚ))
  ticcd_default_Array3 : Arr3

/-- The single-precision third-party backends: only the float instantiation
of the tight-inclusion library exists at this precision. -/
structure BackendsF where
  ticcd_vertexFaceCCD : Pts8 (Arr3 → ℚ → ℚ → ℚ → Int → Int → Except CppExc (Bool × ℚ))
  ticcd_edgeEdgeCCD : Pts8 (Arr3 → ℚ → ℚ → ℚ → Int → Int → Except CppExc (Bool × ℚ))
  ticcd_default_Array3 : Arr3

/-- The switch body of the double-precision `vertexFaceMSCCD` (ccd.cpp):
MIN_SEPARATION_ROOT_FINDER calls the msccd root finder and rejects a hit
whose time of impact falls outside [0, 1]; TIGHT_INCLUSION calls the ticcd
backend with `t_max = 1` and `CCD_TYPE = 1`; every other selector throws
"Invalid Minimum Separation CCDMethod".  A disabled build flag makes the
corresponding case throw "CCD method is not enabled". -/
def vertexFaceMSCCDBody (cfg : BuildConfig) (B : Backends)
    (vertex_start face_vertex0_start face_vertex1_start face_vertex2_start
      vertex_end face_vertex0_end face_vertex1_end face_vertex2_end : Vec3)
    (min_distance : ℚ) (method : CCDMethod) (tolerance : ℚ) (max_iter : Int)
    (err : Arr3) : Except CppExc (Bool × List Diag) :=
  if method = MIN_SEPARATION_ROOT_FINDER then
    if cfg.CCD_WRAPPER_WITH_MSRF then
      match B.msccd_rf_vertexFaceMSCCD vertex_start face_vertex0_start
          face_vertex1_start face_vertex2_start vertex_end face_vertex0_end
          face_vertex1_end face_vertex2_end min_distance with
      | .error e => .error e
      | .ok (hit, toi) =>
        if hit ∧ (toi < 0 ∨ toi > 1) then .error (.msg "toi out of range")
        else .ok (hit, [])
    else .error (.msg "CCD method is not enabled")
  else if method = TIGHT_INCLUSION then
    if cfg.CCD_WRAPPER_WITH_TIGHT_INCLUSION
        && cfg.TIGHT_INCLUSION_WITH_DOUBLE_PRECISION then
      match B.ticcd_vertexFaceCCD vertex_start face_vertex0_start
          face_vertex1_start face_vertex2_start vertex_end face_vertex0_end
          face_vertex1_end face_vertex2_end err min_distance tolerance 1
          max_iter 1 with
      | .error e => .error e
      | .ok (hit, _toi) => .ok (hit, [])
    else .error (.msg "CCD method is not enabled")
  else .error (.msg "Invalid Minimum Separation CCDMethod")

/-- Double-precision `vertexFaceMSCCD` (ccd.cpp): the switch body wrapped in
the try/catch conservative-failure boundary. -/
def vertexFaceMSCCD (cfg : BuildConfig) (B : Backends)
    (vertex_start face_vertex0_start face_vertex1_start face_vertex2_start
      vertex_end face_vertex0_end face_vertex1_end face_vertex2_end : Vec3)
    (min_distance : ℚ) (method : CCDMethod) (tolerance : ℚ) (max_iter : Int)
    (err : Arr3) : Bool × List Diag :=
  guardFail method
    (vertexFaceMSCCDBody cfg B vertex_start face_vertex0_start
      face_vertex1_start face_vertex2_start vertex_end face_vertex0_end
      face_vertex1_end face_vertex2_end min_distance method tolerance
      max_iter err)

/-- The switch body of the double-precision `edgeEdgeMSCCD` (ccd.cpp).  In
the TIGHT_INCLUSION case the local `ticcd::Array3 err` shadows the caller's
rounding-error argument, so `B.ticcd_default_Array3` is what reaches the
backend. -/
def edgeEdgeMSCCDBody (cfg : BuildConfig) (B : Backends)
    (edge0_vertex0_start edge0_vertex1_start edge1_vertex0_start
      edge1_vertex1_start edge0_vertex0_end edge0_vertex1_end
      edge1_vertex0_end edge1_vertex1_end : Vec3)
    (min_distance : ℚ) (method : CCDMethod) (tolerance : ℚ) (max_iter : Int)
    (_err : Arr3) : Except CppExc (Bool × List Diag) :=
  if method = MIN_SEPARATION_ROOT_FINDER then
    if cfg.CCD_WRAPPER_WITH_MSRF then
      match B.msccd_rf_edgeEdgeMSCCD edge0_vertex0_start edge0_vertex1_start
          edge1_vertex0_start edge1_vertex1_start edge0_vertex0_end
          edge0_vertex1_end edge1_vertex0_end edge1_vertex1_end
          min_distance with
      | .error e => .error e
      | .ok (hit, toi) =>
        if hit ∧ (toi < 0 ∨ toi > 1) then .error (.msg "toi out of range")
        else .ok (hit, [])
    else .error (.msg "CCD method is not enabled")
  else if method = TIGHT_INCLUSION then
    if cfg.CCD_WRAPPER_WITH_TIGHT_INCLUSION
        && cfg.TIGHT_INCLUSION_WITH_DOUBLE_PRECISION then
      match B.ticcd_edgeEdgeCCD edge0_vertex0_start edge0_vertex1_start
          edge1_vertex0_start edge1_vertex1_start edge0_vertex0_end
          edge0_vertex1_end edge1_vertex0_end edge1_vertex1_end
          B.ticcd_default_Array3 min_distance tolerance 1 max_iter 1 with
      | .error e => .error e
      | .ok (hit, _toi) => .ok (hit, [])
    else .error (.msg "CCD method is not enabled")
  else .error (.msg "Invalid Minimum Separation CCDMethod")

/-- Double-precision `edgeEdgeMSCCD` (ccd.cpp): the switch body wrapped in
the try/catch conservative-failure boundary. -/
def edgeEdgeMSCCD (cfg : BuildConfig) (B : Backends)
    (edge0_vertex0_start edge0_vertex1_start edge1_vertex0_start
      edge1_vertex1_start edge0_vertex0_end edge0_vertex1_end
      edge1_vertex0_end edge1_vertex1_end : Vec3)
    (min_distance : ℚ) (method : CCDMethod) (tolerance : ℚ) (max_iter : Int)
    (err : Arr3) : Bool × List Diag :=
  guardFail method
    (edgeEdgeMSCCDBody cfg B edge0_vertex0_start edge0_vertex1_start
      edge1_vertex0_start edge1_vertex1_start edge0_vertex0_end
      edge0_vertex1_end edge1_vertex0_end edge1_vertex1_end min_distance
      method tolerance max_iter err)

/-- The switch body of the double-precision `vertexFaceCCD` (ccd.cpp).  Each
case forwards to its backend in that backend's own argument order:
ROOT_PARITY receives the triangle vertices permuted to (1, 0, 2), BSC and
TIGHT_CCD receive the triangle before the point, SAFE_CCD receives start/end
interleaved, MIN_SEPARATION_ROOT_FINDER forwards to the minimum-separation
dispatcher with `DEFAULT_MIN_DISTANCE`, and TIGHT_INCLUSION forwards to it
with separation 0 (unconditionally, with no build-flag guard of its own).
An unknown selector throws "Invalid CCDMethod". -/
def vertexFaceCCDBody (cfg : BuildConfig) (B : Backends)
    (vertex_start face_vertex0_start face_vertex1_start face_vertex2_start
      vertex_end face_vertex0_end face_vertex1_end face_vertex2_end : Vec3)
    (method : CCDMethod) (tolerance : ℚ) (max_iter : Int) (err : Arr3) :
    Except CppExc (Bool × List Diag) :=
  if method = FLOATING_POINT_ROOT_FINDER then
    if cfg.CCD_WRAPPER_WITH_FPRF then
      (B.ctcd_vertexFaceCTCD vertex_start face_vertex0_start
        face_vertex1_start face_vertex2_start vertex_end face_vertex0_end
        face_vertex1_end face_vertex2_end 0).map (fun r => (r.1, []))
    else .error (.msg "CCD method is not enabled")
  else if method = MIN_SEPARATION_ROOT_FINDER then
    if cfg.CCD_WRAPPER_WITH_MSRF then
      .ok (vertexFaceMSCCD cfg B vertex_start face_vertex0_start
        face_vertex1_start face_vertex2_start vertex_end face_vertex0_end
        face_vertex1_end face_vertex2_end DEFAULT_MIN_DISTANCE method
        tolerance max_iter err)
    else .error (.msg "CCD method is not enabled")
  else if method = ROOT_PARITY then
    if cfg.CCD_WRAPPER_WITH_RP then
      (B.rootparity_run_test vertex_start face_vertex1_start
        face_vertex0_start face_vertex2_start vertex_end face_vertex1_end
        face_vertex0_end face_vertex2_end false).map (fun b => (b, []))
    else .error (.msg "CCD method is not enabled")
  else if method = RATIONAL_ROOT_PARITY then
    if cfg.CCD_WRAPPER_WITH_RRP then
      (B.eccd_vertexFaceCCD vertex_start face_vertex0_start
        face_vertex1_start face_vertex2_start vertex_end face_vertex0_end
        face_vertex1_end face_vertex2_end).map (fun b => (b, []))
    else .error (.msg "CCD method is not enabled")
  else if method = FLOATING_POINT_ROOT_PARITY then
    if cfg.CCD_WRAPPER_WITH_FPRP then
      (B.doubleccd_vertexFaceCCD vertex_start face_vertex0_start
        face_vertex1_start face_vertex2_start vertex_end face_vertex0_end
        face_vertex1_end face_vertex2_end).map (fun b => (b, []))
    else .error (.msg "CCD method is not enabled")
  else if method = RATIONAL_FIXED_ROOT_PARITY then
    if cfg.CCD_WRAPPER_WITH_RFRP then
      (B.rfrp_vertexFaceCCD vertex_start face_vertex0_start
        face_vertex1_start face_vertex2_start vertex_end face_vertex0_end
        face_vertex1_end face_vertex2_end).map (fun b => (b, []))
    else .error (.msg "CCD method is not enabled")
  else if method = TIGHT_INCLUSION then
    .ok (vertexFaceMSCCD cfg B vertex_start face_vertex0_start
      face_vertex1_start face_vertex2_start vertex_end face_vertex0_end
      face_vertex1_end face_vertex2_end 0 method tolerance max_iter err)
  else if method = BSC then
    if cfg.CCD_WRAPPER_WITH_BSC then
      (B.bsc_Intersect_VF_robust face_vertex0_start face_vertex1_start
        face_vertex2_start vertex_start face_vertex0_end face_vertex1_end
        face_vertex2_end vertex_end).map (fun b => (b, []))
    else .error (.msg "CCD method is not enabled")
  else if method = TIGHT_CCD then
    if cfg.CCD_WRAPPER_WITH_TIGHT_CCD then
      (B.tightbound_Intersect_VF_robust face_vertex0_start face_vertex1_start
        face_vertex2_start vertex_start face_vertex0_end face_vertex1_end
        face_vertex2_end vertex_end).map (fun b => (b, []))
    else .error (.msg "CCD method is not enabled")
  else if method = SAFE_CCD then
    if cfg.CCD_WRAPPER_WITH_SAFE_CCD then
      (B.safe_Vertex_Triangle_CCD vertex_start vertex_end face_vertex0_start
        face_vertex0_end face_vertex1_start face_vertex1_end
        face_vertex2_start face_vertex2_end).map (fun b => (b, []))
    else .error (.msg "CCD method is not enabled")
  else if method = UNIVARIATE_INTERVAL_ROOT_FINDER then
    if cfg.CCD_WRAPPER_WITH_INTERVAL then
      (B.interval_vertexFaceCCD_Redon vertex_start face_vertex0_start
        face_vertex1_start face_vertex2_start vertex_end face_vertex0_end
        face_vertex1_end face_vertex2_end).map (fun r => (r.1, []))
    else .error (.msg "CCD method is not enabled")
  else if method = MULTIVARIATE_INTERVAL_ROOT_FINDER then
    if cfg.CCD_WRAPPER_WITH_INTERVAL then
      (B.interval_vertexFaceCCD_Interval vertex_start face_vertex0_start
        face_vertex1_start face_vertex2_start vertex_end face_vertex0_end
        face_vertex1_end face_vertex2_end).map (fun r => (r.1, []))
    else .error (.msg "CCD method is not enabled")
  else .error (.msg "Invalid CCDMethod")

/-- Double-precision `vertexFaceCCD` (ccd.cpp): the switch body wrapped in
the try/catch conservative-failure boundary. -/
def vertexFaceCCD (cfg : BuildConfig) (B : Backends)
    (vertex_start face_vertex0_start face_vertex1_start face_vertex2_start
      vertex_end face_vertex0_end face_vertex1_end face_vertex2_end : Vec3)
    (method : CCDMethod) (tolerance : ℚ) (max_iter : Int) (err : Arr3) :
    Bool × List Diag :=
  guardFail method
    (vertexFaceCCDBody cfg B vertex_start face_vertex0_start
      face_vertex1_start face_vertex2_start vertex_end face_vertex0_end
      face_vertex1_end face_vertex2_end method tolerance max_iter err)

/-- The switch body of the double-precision `edgeEdgeCCD` (ccd.cpp).  Edges
go to every backend in the caller's order (ROOT_PARITY gets
`is_edge_edge = true`); SAFE_CCD again interleaves start/end;
MIN_SEPARATION_ROOT_FINDER and TIGHT_INCLUSION forward to the
minimum-separation dispatcher with `DEFAULT_MIN_DISTANCE` and 0. -/
def edgeEdgeCCDBody (cfg : BuildConfig) (B : Backends)
    (edge0_vertex0_start edge0_vertex1_start edge1_vertex0_start
      edge1_vertex1_start edge0_vertex0_end edge0_vertex1_end
      edge1_vertex0_end edge1_vertex1_end : Vec3)
    (method : CCDMethod) (tolerance : ℚ) (max_iter : Int) (err : Arr3) :
    Except CppExc (Bool × List Diag) :=
  if method = FLOATING_POINT_ROOT_FINDER then
    if cfg.CCD_WRAPPER_WITH_FPRF then
      (B.ctcd_edgeEdgeCTCD edge0_vertex0_start edge0_vertex1_start
        edge1_vertex0_start edge1_vertex1_start edge0_vertex0_end
        edge0_vertex1_end edge1_vertex0_end edge1_vertex1_end 0).map
        (fun r => (r.1, []))
    else .error (.msg "CCD method is not enabled")
  else if method = MIN_SEPARATION_ROOT_FINDER then
    if cfg.CCD_WRAPPER_WITH_MSRF then
      .ok (edgeEdgeMSCCD cfg B edge0_vertex0_start edge0_vertex1_start
        edge1_vertex0_start edge1_vertex1_start edge0_vertex0_end
        edge0_vertex1_end edge1_vertex0_end edge1_vertex1_end
        DEFAULT_MIN_DISTANCE method tolerance max_iter err)
    else .error (.msg "CCD method is not enabled")
  else if method = ROOT_PARITY then
    if cfg.CCD_WRAPPER_WITH_RP then
      (B.rootparity_run_test edge0_vertex0_start edge0_vertex1_start
        edge1_vertex0_start edge1_vertex1_start edge0_vertex0_end
        edge0_vertex1_end edge1_vertex0_end edge1_vertex1_end true).map
        (fun b => (b, []))
    else .error (.msg "CCD method is not enabled")
  else if method = RATIONAL_ROOT_PARITY then
    if cfg.CCD_WRAPPER_WITH_RRP then
      (B.eccd_edgeEdgeCCD edge0_vertex0_start edge0_vertex1_start
        edge1_vertex0_start edge1_vertex1_start edge0_vertex0_end
        edge0_vertex1_end edge1_vertex0_end edge1_vertex1_end).map
        (fun b => (b, []))
    else .error (.msg "CCD method is not enabled")
  else if method = FLOATING_POINT_ROOT_PARITY then
    if cfg.CCD_WRAPPER_WITH_FPRP then
      (B.doubleccd_edgeEdgeCCD edge0_vertex0_start edge0_vertex1_start
        edge1_vertex0_start edge1_vertex1_start edge0_vertex0_end
        edge0_vertex1_end edge1_vertex0_end edge1_vertex1_end).map
        (fun b => (b, []))
    else .error (.msg "CCD method is not enabled")
  else if method = RATIONAL_FIXED_ROOT_PARITY then
    if cfg.CCD_WRAPPER_WITH_RFRP then
      (B.rfrp_edgeEdgeCCD edge0_vertex0_start edge0_vertex1_start
        edge1_vertex0_start edge1_vertex1_start edge0_vertex0_end
        edge0_vertex1_end edge1_vertex0_end edge1_vertex1_end).map
        (fun b => (b, []))
    else .error (.msg "CCD method is not enabled")
  else if method = TIGHT_INCLUSION then
    .ok (edgeEdgeMSCCD cfg B edge0_vertex0_start edge0_vertex1_start
      edge1_vertex0_start edge1_vertex1_start edge0_vertex0_end
      edge0_vertex1_end edge1_vertex0_end edge1_vertex1_end 0 method
      tolerance max_iter err)
  else if method = BSC then
    if cfg.CCD_WRAPPER_WITH_BSC then
      (B.bsc_Intersect_EE_robust edge0_vertex0_start edge0_vertex1_start
        edge1_vertex0_start edge1_vertex1_start edge0_vertex0_end
        edge0_vertex1_end edge1_vertex0_end edge1_vertex1_end).map
        (fun b => (b, []))
    else .error (.msg "CCD method is not enabled")
  else if method = TIGHT_CCD then
    if cfg.CCD_WRAPPER_WITH_TIGHT_CCD then
      (B.tightbound_Intersect_EE_robust edge0_vertex0_start
        edge0_vertex1_start edge1_vertex0_start edge1_vertex1_start
        edge0_vertex0_end edge0_vertex1_end edge1_vertex0_end
        edge1_vertex1_end).map (fun b => (b, []))
    else .error (.msg "CCD method is not enabled")
  else if method = SAFE_CCD then
    if cfg.CCD_WRAPPER_WITH_SAFE_CCD then
      (B.safe_Edge_Edge_CCD edge0_vertex0_start edge0_vertex0_end
        edge0_vertex1_start edge0_vertex1_end edge1_vertex0_start
        edge1_vertex0_end edge1_vertex1_start edge1_vertex1_end).map
        (fun b => (b, []))
    else .error (.msg "CCD method is not enabled")
  else if method = UNIVARIATE_INTERVAL_ROOT_FINDER then
    if cfg.CCD_WRAPPER_WITH_INTERVAL then
      (B.interval_edgeEdgeCCD_Redon edge0_vertex0_start edge0_vertex1_start
        edge1_vertex0_start edge1_vertex1_start edge0_vertex0_end
        edge0_vertex1_end edge1_vertex0_end edge1_vertex1_end).map
        (fun r => (r.1, []))
    else .error (.msg "CCD method is not enabled")
  else if method = MULTIVARIATE_INTERVAL_ROOT_FINDER then
    if cfg.CCD_WRAPPER_WITH_INTERVAL then
      (B.interval_edgeEdgeCCD_Interval edge0_vertex0_start
        edge0_vertex1_start edge1_vertex0_start edge1_vertex1_start
        edge0_vertex0_end edge0_vertex1_end edge1_vertex0_end
        edge1_vertex1_end).map (fun r => (r.1, []))
    else .error (.msg "CCD method is not enabled")
  else .error (.msg "Invalid CCDMethod")

/-- Double-precision `edgeEdgeCCD` (ccd.cpp): the switch body wrapped in the
try/catch conservative-failure boundary. -/
def edgeEdgeCCD (cfg : BuildConfig) (B : Backends)
    (edge0_vertex0_start edge0_vertex1_start edge1_vertex0_start
      edge1_vertex1_start edge0_vertex0_end edge0_vertex1_end
      edge1_vertex0_end edge1_vertex1_end : Vec3)
    (method : CCDMethod) (tolerance : ℚ) (max_iter : Int) (err : Arr3) :
    Bool × List Diag :=
  guardFail method
    (edgeEdgeCCDBody cfg B edge0_vertex0_start edge0_vertex1_start
      edge1_vertex0_start edge1_vertex1_start edge0_vertex0_end
      edge0_vertex1_end edge1_vertex0_end edge1_vertex1_end method tolerance
      max_iter err)

/-- The switch body of the single-precision `vertexFaceMSCCD` (ccd.cpp):
only TIGHT_INCLUSION is wired, and only when the tight-inclusion library is
built in float precision (`!defined(TIGHT_INCLUSION_WITH_DOUBLE_PRECISION)`);
every other selector throws "Invalid Minimum Separation CCDMethod". -/
def vertexFaceMSCCDBodyF (cfg : BuildConfig) (B : BackendsF)
    (vertex_start face_vertex0_start face_vertex1_start face_vertex2_start
      vertex_end face_vertex0_end face_vertex1_end face_vertex2_end : Vec3)
    (min_distance : ℚ) (method : CCDMethod) (tolerance : ℚ) (max_iter : Int)
    (err : Arr3) : Except CppExc (Bool × List Diag) :=
  if method = TIGHT_INCLUSION then
    if cfg.CCD_WRAPPER_WITH_TIGHT_INCLUSION
        && !cfg.TIGHT_INCLUSION_WITH_DOUBLE_PRECISION then
      match B.ticcd_vertexFaceCCD vertex_start face_vertex0_start
          face_vertex1_start face_vertex2_start vertex_end face_vertex0_end
          face_vertex1_end face_vertex2_end err min_distance tolerance 1
          max_iter 1 with
      | .error e => .error e
      | .ok (hit, _toi) => .ok (hit, [])
    else .error (.msg "CCD method is not enabled")
  else .error (.msg "Invalid Minimum Separation CCDMethod")

/-- Single-precision `vertexFaceMSCCD` (ccd.cpp): its switch body wrapped in
the same try/catch conservative-failure boundary as the double versions. -/
def vertexFaceMSCCDF (cfg : BuildConfig) (B : BackendsF)
    (vertex_start face_vertex0_start face_vertex1_start face_vertex2_start
      vertex_end face_vertex0_end face_vertex1_end face_vertex2_end : Vec3)
    (min_distance : ℚ) (method : CCDMethod) (tolerance : ℚ) (max_iter : Int)
    (err : Arr3) : Bool × List Diag :=
  guardFail method
    (vertexFaceMSCCDBodyF cfg B vertex_start face_vertex0_start
      face_vertex1_start face_vertex2_start vertex_end face_vertex0_end
      face_vertex1_end face_vertex2_end min_distance method tolerance
      max_iter err)

/-- The switch body of the single-precision `edgeEdgeMSCCD` (ccd.cpp).  As in
the double version, a local `ticcd::Array3 err` shadows the caller's
rounding-error argument. -/
def edgeEdgeMSCCDBodyF (cfg : BuildConfig) (B : BackendsF)
    (edge0_vertex0_start edge0_vertex1_start edge1_vertex0_start
      edge1_vertex1_start edge0_vertex0_end edge0_vertex1_end
      edge1_vertex0_end edge1_vertex1_end : Vec3)
    (min_distance : ℚ) (method : CCDMethod) (tolerance : ℚ) (max_iter : Int)
    (_err : Arr3) : Except CppExc (Bool × List Diag) :=
  if method = TIGHT_INCLUSION then
    if cfg.CCD_WRAPPER_WITH_TIGHT_INCLUSION
        && !cfg.TIGHT_INCLUSION_WITH_DOUBLE_PRECISION then
      match B.ticcd_edgeEdgeCCD edge0_vertex0_start edge0_vertex1_start
          edge1_vertex0_start edge1_vertex1_start edge0_vertex0_end
          edge0_vertex1_end edge1_vertex0_end edge1_vertex1_end
          B.ticcd_default_Array3 min_distance tolerance 1 max_iter 1 with
      | .error e => .error e
      | .ok (hit, _toi) => .ok (hit, [])
    else .error (.msg "CCD method is not enabled")
  else .error (.msg "Invalid Minimum Separation CCDMethod")

/-- Single-precision `edgeEdgeMSCCD` (ccd.cpp): its switch body wrapped in
the try/catch conservative-failure boundary. -/
def edgeEdgeMSCCDF (cfg : BuildConfig) (B : BackendsF)
    (edge0_vertex0_start edge0_vertex1_start edge1_vertex0_start
      edge1_vertex1_start edge0_vertex0_end edge0_vertex1_end
      edge1_vertex0_end edge1_vertex1_end : Vec3)
    (min_distance : ℚ) (method : CCDMethod) (tolerance : ℚ) (max_iter : Int)
    (err : Arr3) : Bool × List Diag :=
  guardFail method
    (edgeEdgeMSCCDBodyF cfg B edge0_vertex0_start edge0_vertex1_start
      edge1_vertex0_start edge1_vertex1_start edge0_vertex0_end
      edge0_vertex1_end edge1_vertex0_end edge1_vertex1_end min_distance
      method tolerance max_iter err)

/-- Single-precision `vertexFaceCCD` (ccd.cpp).  Unlike every other entry
point it has NO try/catch: TIGHT_INCLUSION forwards to the float
minimum-separation dispatcher with separation 0, and every other selector
reaches `throw "Unimplemented"`, which propagates to the caller — hence the
`Except` result type. -/
def vertexFaceCCDF (cfg : BuildConfig) (B : BackendsF)
    (vertex_start face_vertex0_start face_vertex1_start face_vertex2_start
      vertex_end face_vertex0_end face_vertex1_end face_vertex2_end : Vec3)
    (method : CCDMethod) (tolerance : ℚ) (max_iter : Int) (err : Arr3) :
    Except CppExc (Bool × List Diag) :=
  if method = TIGHT_INCLUSION then
    .ok (vertexFaceMSCCDF cfg B vertex_start face_vertex0_start
      face_vertex1_start face_vertex2_start vertex_end face_vertex0_end
      face_vertex1_end face_vertex2_end 0 method tolerance max_iter err)
  else .error (.msg "Unimplemented")

/-- Single-precision `edgeEdgeCCD` (ccd.cpp): its entire body is an
unconditional forward to the float `edgeEdgeMSCCD` with separation 0 — there
is no method switch and no "Unimplemented" throw, so it never fails (always
`.ok`); typed as `Except` to compare with the vertex-face variant. -/
def edgeEdgeCCDF (cfg : BuildConfig) (B : BackendsF)
    (edge0_vertex0_start edge0_vertex1_start edge1_vertex0_start
      edge1_vertex1_start edge0_vertex0_end edge0_vertex1_end
      edge1_vertex0_end edge1_vertex1_end : Vec3)
    (method : CCDMethod) (tolerance : ℚ) (max_iter : Int) (err : Arr3) :
    Except CppExc (Bool × List Diag) :=
  .ok (edgeEdgeMSCCDF cfg B edge0_vertex0_start edge0_vertex1_start
    edge1_vertex0_start edge1_vertex1_start edge0_vertex0_end
    edge0_vertex1_end edge1_vertex0_end edge1_vertex1_end 0 method tolerance
    max_iter err)

attribute [simp] FLOATING_POINT_ROOT_FINDER MIN_SEPARATION_ROOT_FINDER
  ROOT_PARITY RATIONAL_ROOT_PARITY FLOATING_POINT_ROOT_PARITY
  RATIONAL_FIXED_ROOT_PARITY BSC TIGHT_CCD SAFE_CCD
  UNIVARIATE_INTERVAL_ROOT_FINDER MULTIVARIATE_INTERVAL_ROOT_FINDER
  TIGHT_INCLUSION NUM_CCD_METHODS

/-- The zero point, used as a concrete geometric input. -/
def origin : Vec3 := ⟨0, 0, 0⟩

/-- A build with every backend compiled in and the tight-inclusion library
in double precision. -/
def allOnConfig : BuildConfig :=
  ⟨true, true, true, true, true, true, true, true, true, true, true, true⟩

/-- A build with no backend compiled in. -/
def allOffConfig : BuildConfig :=
  ⟨false, false, false, false, false, false, false, false, false, false,
    false, false⟩

/-- A concrete backend record in which every boolean-returning backend
answers `rb` and every time-of-impact-returning backend answers `rt`. -/
def constBackends (rb : Except CppExc Bool) (rt : Except CppExc (Bool × ℚ)) :
    Backends where
  ctcd_vertexFaceCTCD := fun _ _ _ _ _ _ _ _ _ => rt
  ctcd_edgeEdgeCTCD := fun _ _ _ _ _ _ _ _ _ => rt
  rootparity_run_test := fun _ _ _ _ _ _ _ _ _ => rb
  eccd_vertexFaceCCD := fun _ _ _ _ _ _ _ _ => rb
  eccd_edgeEdgeCCD := fun _ _ _ _ _ _ _ _ => rb
  doubleccd_vertexFaceCCD := fun _ _ _ _ _ _ _ _ => rb
  doubleccd_edgeEdgeCCD := fun _ _ _ _ _ _ _ _ => rb
  rfrp_vertexFaceCCD := fun _ _ _ _ _ _ _ _ => rb
  rfrp_edgeEdgeCCD := fun _ _ _ _ _ _ _ _ => rb
  bsc_Intersect_VF_robust := fun _ _ _ _ _ _ _ _ => rb
  bsc_Intersect_EE_robust := fun _ _ _ _ _ _ _ _ => rb
  tightbound_Intersect_VF_robust := fun _ _ _ _ _ _ _ _ => rb
  tightbound_Intersect_EE_robust := fun _ _ _ _ _ _ _ _ => rb
  safe_Vertex_Triangle_CCD := fun _ _ _ _ _ _ _ _ => rb
  safe_Edge_Edge_CCD := fun _ _ _ _ _ _ _ _ => rb
  interval_vertexFaceCCD_Redon := fun _ _ _ _ _ _ _ _ => rt
  interval_vertexFaceCCD_Interval := fun _ _ _ _ _ _ _ _ => rt
  interval_edgeEdgeCCD_Redon := fun _ _ _ _ _ _ _ _ => rt
  interval_edgeEdgeCCD_Interval := fun _ _ _ _ _ _ _ _ => rt
  msccd_rf_vertexFaceMSCCD := fun _ _ _ _ _ _ _ _ _ => rt
  msccd_rf_edgeEdgeMSCCD := fun _ _ _ _ _ _ _ _ _ => rt
  ticcd_vertexFaceCCD := fun _ _ _ _ _ _ _ _ _ _ _ _ _ _ => rt
  ticcd_edgeEdgeCCD := fun _ _ _ _ _ _ _ _ _ _ _ _ _ _ => rt
  ticcd_default_Array3 := origin

/-- A concrete single-precision backend record in which the tight-inclusion
backend answers `rt`. -/
def constBackendsF (rt : Except CppExc (Bool × ℚ)) : BackendsF where
  ticcd_vertexFaceCCD := fun _ _ _ _ _ _ _ _ _ _ _ _ _ _ => rt
  ticcd_edgeEdgeCCD := fun _ _ _ _ _ _ _ _ _ _ _ _ _ _ => rt
  ticcd_default_Array3 := origin

/-- C10: every minimum-separation method (MIN_SEPARATION_ROOT_FINDER and
TIGHT_INCLUSION) is also a conservative method and a method that computes a
time of impact: `is_minimum_separation_method` is a subset of both
`is_conservative_method` and `is_time_of_impact_computed`. -/
theorem ms_methods_subset_conservative_and_toi :
    ∀ m : CCDMethod, is_minimum_separation_method m = true →
      is_conservative_method m = true ∧ is_time_of_impact_computed m = true := by
  intro m h
  unfold is_minimum_separation_method at h
  split_ifs at h with h1 h2
  · subst h1
    exact ⟨by decide, by decide⟩
  · subst h2
    exact ⟨by decide, by decide⟩

/-- Closed witness for C10 at the concrete method TIGHT_INCLUSION. -/
theorem ms_methods_subset_conservative_and_toi_witness :
    is_minimum_separation_method TIGHT_INCLUSION = true
      ∧ (is_conservative_method TIGHT_INCLUSION = true
        ∧ is_time_of_impact_computed TIGHT_INCLUSION = true) :=
  ⟨by decide, ms_methods_subset_conservative_and_toi TIGHT_INCLUSION (by decide)⟩

/-- C6: the minimum-separation dispatchers accept exactly the methods with
`is_minimum_separation_method = true` (MIN_SEPARATION_ROOT_FINDER and
TIGHT_INCLUSION); for every other selector they return the conservative
`true` with a single InvalidMethod diagnostic — and, since the result below
is the same for every backend record `B`, no backend is invoked on that
path. -/
theorem ms_dispatchers_accept_exactly_ms_methods :
    (∀ m : CCDMethod, is_minimum_separation_method m = true ↔
      (m = MIN_SEPARATION_ROOT_FINDER ∨ m = TIGHT_INCLUSION))
    ∧ (∀ cfg B a b c d e f g i mind m tol it er,
        is_minimum_separation_method m = false →
        vertexFaceMSCCD cfg B a b c d e f g i mind m tol it er =
          (true, [mkDiag m (.msg "Invalid Minimum Separation CCDMethod")]))
    ∧ (∀ cfg B a b c d e f g i mind m tol it er,
        is_minimum_separation_method m = false →
        edgeEdgeMSCCD cfg B a b c d e f g i mind m tol it er =
          (true, [mkDiag m (.msg "Invalid Minimum Separation CCDMethod")])) := by
  refine ⟨?_, ?_, ?_⟩
  · intro m
    unfold is_minimum_separation_method
    split_ifs with h1 h2
    · simp [h1]
    · simp [h2]
    · simp only [MIN_SEPARATION_ROOT_FINDER, TIGHT_INCLUSION] at h1 h2
      simp [h1, h2]
  · intro cfg B a b c d e f g i mind m tol it er h
    unfold is_minimum_separation_method at h
    split_ifs at h with h1 h2
    simp only [MIN_SEPARATION_ROOT_FINDER, TIGHT_INCLUSION] at h1 h2
    simp [vertexFaceMSCCD, vertexFaceMSCCDBody, guardFail, h1, h2]
  · intro cfg B a b c d e f g i mind m tol it er h
    unfold is_minimum_separation_method at h
    split_ifs at h with h1 h2
    simp only [MIN_SEPARATION_ROOT_FINDER, TIGHT_INCLUSION] at h1 h2
    simp [edgeEdgeMSCCD, edgeEdgeMSCCDBody, guardFail, h1, h2]

/-- Closed witness for C6 at the concrete non-minimum-separation method
ROOT_PARITY. -/
theorem ms_dispatchers_accept_exactly_ms_methods_witness :
    is_minimum_separation_method ROOT_PARITY = false
      ∧ vertexFaceMSCCD allOnConfig (constBackends (.ok false) (.ok (false, 0)))
          origin origin origin origin origin origin origin origin 0
          ROOT_PARITY 1 1 origin =
        (true, [⟨some "RootParity", "Invalid Minimum Separation CCDMethod"⟩])
      ∧ edgeEdgeMSCCD allOnConfig (constBackends (.ok false) (.ok (false, 0)))
          origin origin origin origin origin origin origin origin 0
          ROOT_PARITY 1 1 origin =
        (true, [⟨some "RootParity", "Invalid Minimum Separation CCDMethod"⟩]) :=
  ⟨by decide,
    ms_dispatchers_accept_exactly_ms_methods.2.1 allOnConfig
      (constBackends (.ok false) (.ok (false, 0))) origin origin origin origin
      origin origin origin origin 0 ROOT_PARITY 1 1 origin (by decide),
    ms_dispatchers_accept_exactly_ms_methods.2.2 allOnConfig
      (constBackends (.ok false) (.ok (false, 0))) origin origin origin origin
      origin origin origin origin 0 ROOT_PARITY 1 1 origin (by decide)⟩

/-- C3: for TIGHT_INCLUSION the exact entry points are literally the
minimum-separation entry points with separation fixed at 0 — for every build
configuration, every backend record and all inputs the whole result (answer
and diagnostics) coincides — and `is_minimum_separation_method` holds for
TIGHT_INCLUSION. -/
theorem tight_inclusion_exact_eq_ms_zero :
    is_minimum_separation_method TIGHT_INCLUSION = true
    ∧ (∀ cfg B a b c d e f g i tol it er,
        vertexFaceCCD cfg B a b c d e f g i TIGHT_INCLUSION tol it er =
          vertexFaceMSCCD cfg B a b c d e f g i 0 TIGHT_INCLUSION tol it er)
    ∧ (∀ cfg B a b c d e f g i tol it er,
        edgeEdgeCCD cfg B a b c d e f g i TIGHT_INCLUSION tol it er =
          edgeEdgeMSCCD cfg B a b c d e f g i 0 TIGHT_INCLUSION tol it er) := by
  refine ⟨by decide, ?_, ?_⟩
  · intro cfg B a b c d e f g i tol it er
    rfl
  · intro cfg B a b c d e f g i tol it er
    rfl

/-- C9: the exact entry points route MIN_SEPARATION_ROOT_FINDER through the
minimum-separation dispatcher with the shared positive default separation
`DEFAULT_MIN_DISTANCE = 1e-8`, never literal zero; the equality of the full
results holds for every build configuration (when the backend is not
compiled in, both sides fail into the same conservative answer and
diagnostic). -/
theorem msrf_exact_uses_positive_default_separation :
    DEFAULT_MIN_DISTANCE = 1 / 100000000 ∧ (0 : ℚ) < DEFAULT_MIN_DISTANCE
    ∧ (∀ cfg B a b c d e f g i tol it er,
        vertexFaceCCD cfg B a b c d e f g i MIN_SEPARATION_ROOT_FINDER tol it er =
          vertexFaceMSCCD cfg B a b c d e f g i DEFAULT_MIN_DISTANCE
            MIN_SEPARATION_ROOT_FINDER tol it er)
    ∧ (∀ cfg B a b c d e f g i tol it er,
        edgeEdgeCCD cfg B a b c d e f g i MIN_SEPARATION_ROOT_FINDER tol it er =
          edgeEdgeMSCCD cfg B a b c d e f g i DEFAULT_MIN_DISTANCE
            MIN_SEPARATION_ROOT_FINDER tol it er) := by
  refine ⟨rfl, by norm_num [DEFAULT_MIN_DISTANCE], ?_, ?_⟩
  · intro cfg B a b c d e f g i tol it er
    cases hf : cfg.CCD_WRAPPER_WITH_MSRF
    · simp [vertexFaceCCD, vertexFaceCCDBody, vertexFaceMSCCD,
        vertexFaceMSCCDBody, guardFail, hf]
    · simp [vertexFaceCCD, vertexFaceCCDBody, guardFail, hf]
  · intro cfg B a b c d e f g i tol it er
    cases hf : cfg.CCD_WRAPPER_WITH_MSRF
    · simp [edgeEdgeCCD, edgeEdgeCCDBody, edgeEdgeMSCCD, edgeEdgeMSCCDBody,
        guardFail, hf]
    · simp [edgeEdgeCCD, edgeEdgeCCDBody, guardFail, hf]

/-- C1: whenever the switch body of a double-precision entry point fails —
an explicit backend `const char*` signal, an unexpected fault, or the
internal time-of-impact invariant violation, all of which surface as an
`Except.error` of the body — the entry point returns the conservative
outcome `true` together with exactly one diagnostic record {method name,
cause}.  The entry points' total return type `Bool × List Diag` is itself
the "no failure ever escapes as anything but that boolean" half of the
contract. -/
theorem dispatch_failure_yields_conservative_true :
    (∀ cfg B p1 p2 p3 p4 p5 p6 p7 p8 m tol it er ex,
        vertexFaceCCDBody cfg B p1 p2 p3 p4 p5 p6 p7 p8 m tol it er = .error ex →
        vertexFaceCCD cfg B p1 p2 p3 p4 p5 p6 p7 p8 m tol it er =
          (true, [mkDiag m ex]))
    ∧ (∀ cfg B p1 p2 p3 p4 p5 p6 p7 p8 m tol it er ex,
        edgeEdgeCCDBody cfg B p1 p2 p3 p4 p5 p6 p7 p8 m tol it er = .error ex →
        edgeEdgeCCD cfg B p1 p2 p3 p4 p5 p6 p7 p8 m tol it er =
          (true, [mkDiag m ex]))
    ∧ (∀ cfg B p1 p2 p3 p4 p5 p6 p7 p8 mind m tol it er ex,
        vertexFaceMSCCDBody cfg B p1 p2 p3 p4 p5 p6 p7 p8 mind m tol it er =
          .error ex →
        vertexFaceMSCCD cfg B p1 p2 p3 p4 p5 p6 p7 p8 mind m tol it er =
          (true, [mkDiag m ex]))
    ∧ (∀ cfg B p1 p2 p3 p4 p5 p6 p7 p8 mind m tol it er ex,
        edgeEdgeMSCCDBody cfg B p1 p2 p3 p4 p5 p6 p7 p8 mind m tol it er =
          .error ex →
        edgeEdgeMSCCD cfg B p1 p2 p3 p4 p5 p6 p7 p8 mind m tol it er =
          (true, [mkDiag m ex])) := by
  refine ⟨?_, ?_, ?_, ?_⟩
  · intro cfg B p1 p2 p3 p4 p5 p6 p7 p8 m tol it er ex he
    unfold vertexFaceCCD
    rw [he]
    rfl
  · intro cfg B p1 p2 p3 p4 p5 p6 p7 p8 m tol it er ex he
    unfold edgeEdgeCCD
    rw [he]
    rfl
  · intro cfg B p1 p2 p3 p4 p5 p6 p7 p8 mind m tol it er ex he
    unfold vertexFaceMSCCD
    rw [he]
    rfl
  · intro cfg B p1 p2 p3 p4 p5 p6 p7 p8 mind m tol it er ex he
    unfold edgeEdgeMSCCD
    rw [he]
    rfl

/-- Closed witness for C1: in a build with no backend, every body fails and
every double-precision entry point answers conservative `true` with one
diagnostic. -/
theorem dispatch_failure_yields_conservative_true_witness :
    (vertexFaceCCDBody allOffConfig (constBackends (.ok false) (.ok (false, 0)))
        origin origin origin origin origin origin origin origin
        FLOATING_POINT_ROOT_FINDER 1 1 origin =
      .error (.msg "CCD method is not enabled")
      ∧ vertexFaceCCD allOffConfig (constBackends (.ok false) (.ok (false, 0)))
          origin origin origin origin origin origin origin origin
          FLOATING_POINT_ROOT_FINDER 1 1 origin =
        (true, [mkDiag FLOATING_POINT_ROOT_FINDER
          (.msg "CCD method is not enabled")]))
    ∧ (edgeEdgeCCDBody allOffConfig (constBackends (.ok false) (.ok (false, 0)))
        origin origin origin origin origin origin origin origin
        FLOATING_POINT_ROOT_FINDER 1 1 origin =
      .error (.msg "CCD method is not enabled")
      ∧ edgeEdgeCCD allOffConfig (constBackends (.ok false) (.ok (false, 0)))
          origin origin origin origin origin origin origin origin
          FLOATING_POINT_ROOT_FINDER 1 1 origin =
        (true, [mkDiag FLOATING_POINT_ROOT_FINDER
          (.msg "CCD method is not enabled")]))
    ∧ (vertexFaceMSCCDBody allOffConfig
        (constBackends (.ok false) (.ok (false, 0))) origin origin origin
        origin origin origin origin origin 0 FLOATING_POINT_ROOT_FINDER 1 1
        origin = .error (.msg "Invalid Minimum Separation CCDMethod")
      ∧ vertexFaceMSCCD allOffConfig (constBackends (.ok false) (.ok (false, 0)))
          origin origin origin origin origin origin origin origin 0
          FLOATING_POINT_ROOT_FINDER 1 1 origin =
        (true, [mkDiag FLOATING_POINT_ROOT_FINDER
          (.msg "Invalid Minimum Separation CCDMethod")]))
    ∧ (edgeEdgeMSCCDBody allOffConfig
        (constBackends (.ok false) (.ok (false, 0))) origin origin origin
        origin origin origin origin origin 0 FLOATING_POINT_ROOT_FINDER 1 1
        origin = .error (.msg "Invalid Minimum Separation CCDMethod")
      ∧ edgeEdgeMSCCD allOffConfig (constBackends (.ok false) (.ok (false, 0)))
          origin origin origin origin origin origin origin origin 0
          FLOATING_POINT_ROOT_FINDER 1 1 origin =
        (true, [mkDiag FLOATING_POINT_ROOT_FINDER
          (.msg "Invalid Minimum Separation CCDMethod")])) := by
  refine ⟨⟨rfl, ?_⟩, ⟨rfl, ?_⟩, ⟨rfl, ?_⟩, ⟨rfl, ?_⟩⟩
  · exact dispatch_failure_yields_conservative_true.1 allOffConfig
      (constBackends (.ok false) (.ok (false, 0))) origin origin origin origin
      origin origin origin origin FLOATING_POINT_ROOT_FINDER 1 1 origin
      (.msg "CCD method is not enabled") rfl
  · exact dispatch_failure_yields_conservative_true.2.1 allOffConfig
      (constBackends (.ok false) (.ok (false, 0))) origin origin origin origin
      origin origin origin origin FLOATING_POINT_ROOT_FINDER 1 1 origin
      (.msg "CCD method is not enabled") rfl
  · exact dispatch_failure_yields_conservative_true.2.2.1 allOffConfig
      (constBackends (.ok false) (.ok (false, 0))) origin origin origin origin
      origin origin origin origin 0 FLOATING_POINT_ROOT_FINDER 1 1 origin
      (.msg "Invalid Minimum Separation CCDMethod") rfl
  · exact dispatch_failure_yields_conservative_true.2.2.2 allOffConfig
      (constBackends (.ok false) (.ok (false, 0))) origin origin origin origin
      origin origin origin origin 0 FLOATING_POINT_ROOT_FINDER 1 1 origin
      (.msg "Invalid Minimum Separation CCDMethod") rfl

/-- C2 counterexample: for the accepted minimum-separation method
TIGHT_INCLUSION, a backend that reports hit = true with time of impact
3/2 > 1 (outside [0, 1]) is passed through by `vertexFaceMSCCD` with an
EMPTY diagnostic list — no "toi out of range" escalation happens — so the
claim's "this holds for every accepted minimum-separation method" is false:
only the MIN_SEPARATION_ROOT_FINDER path validates the window. -/
theorem tight_inclusion_toi_unvalidated_cex :
    vertexFaceMSCCD allOnConfig (constBackends (.ok false) (.ok (true, 3 / 2)))
        origin origin origin origin origin origin origin origin 0
        TIGHT_INCLUSION 1 1000000 origin = (true, [])
    ∧ (3 : ℚ) / 2 > 1 := by
  exact ⟨rfl, by norm_num⟩

/-- C2 as amended: the time-of-impact window validation exists on the
MIN_SEPARATION_ROOT_FINDER path only.  There, a backend hit whose time of
impact lies outside [0, 1] is escalated to the conservative-failure path:
collision = true with the single diagnostic cause "toi out of range". -/
theorem msrf_toi_out_of_window_escalates :
    (∀ cfg B p1 p2 p3 p4 p5 p6 p7 p8 mind tol it er toi,
        cfg.CCD_WRAPPER_WITH_MSRF = true →
        B.msccd_rf_vertexFaceMSCCD p1 p2 p3 p4 p5 p6 p7 p8 mind =
          .ok (true, toi) →
        toi < 0 ∨ toi > 1 →
        vertexFaceMSCCD cfg B p1 p2 p3 p4 p5 p6 p7 p8 mind
            MIN_SEPARATION_ROOT_FINDER tol it er =
          (true, [mkDiag MIN_SEPARATION_ROOT_FINDER (.msg "toi out of range")]))
    ∧ (∀ cfg B p1 p2 p3 p4 p5 p6 p7 p8 mind tol it er toi,
        cfg.CCD_WRAPPER_WITH_MSRF = true →
        B.msccd_rf_edgeEdgeMSCCD p1 p2 p3 p4 p5 p6 p7 p8 mind =
          .ok (true, toi) →
        toi < 0 ∨ toi > 1 →
        edgeEdgeMSCCD cfg B p1 p2 p3 p4 p5 p6 p7 p8 mind
            MIN_SEPARATION_ROOT_FINDER tol it er =
          (true, [mkDiag MIN_SEPARATION_ROOT_FINDER
            (.msg "toi out of range")])) := by
  constructor
  · intro cfg B p1 p2 p3 p4 p5 p6 p7 p8 mind tol it er toi hflag hb htoi
    simp [vertexFaceMSCCD, vertexFaceMSCCDBody, guardFail, hflag, hb, htoi]
  · intro cfg B p1 p2 p3 p4 p5 p6 p7 p8 mind tol it er toi hflag hb htoi
    simp [edgeEdgeMSCCD, edgeEdgeMSCCDBody, guardFail, hflag, hb, htoi]

/-- Closed witness for C2 (amended) at a concrete backend reporting a hit
with time of impact 3/2. -/
theorem msrf_toi_out_of_window_escalates_witness :
    allOnConfig.CCD_WRAPPER_WITH_MSRF = true
    ∧ (constBackends (.ok false) (.ok (true, 3 / 2))).msccd_rf_vertexFaceMSCCD
        origin origin origin origin origin origin origin origin 0 =
      .ok (true, 3 / 2)
    ∧ ((3 : ℚ) / 2 < 0 ∨ (3 : ℚ) / 2 > 1)
    ∧ vertexFaceMSCCD allOnConfig (constBackends (.ok false) (.ok (true, 3 / 2)))
        origin origin origin origin origin origin origin origin 0
        MIN_SEPARATION_ROOT_FINDER 1 1 origin =
      (true, [mkDiag MIN_SEPARATION_ROOT_FINDER (.msg "toi out of range")]) := by
  refine ⟨rfl, rfl, Or.inr (by norm_num), ?_⟩
  exact msrf_toi_out_of_window_escalates.1 allOnConfig
    (constBackends (.ok false) (.ok (true, 3 / 2))) origin origin origin
    origin origin origin origin origin 0 1 1 origin (3 / 2) rfl rfl
    (Or.inr (by norm_num))

/-- The fixed triangle-vertex reordering the root-parity backend requires,
as the spec names it: the triangle (v0, v1, v2) is passed as (v1, v0, v2).
This is the spec-side description of the adapter, to be compared with the
dispatcher's behaviour. -/
def rootParityFacePerm (t0 t1 t2 : Vec3) : Vec3 × Vec3 × Vec3 := (t1, t0, t2)

/-- C8: for ROOT_PARITY, `vertexFaceCCD` invokes the backend with the
triangle vertices at both instants permuted by the fixed, input-independent
permutation (v1, v0, v2) after the point — for every input the backend call
is exactly the oracle applied to `rootParityFacePerm` of the caller's
triangle. -/
theorem root_parity_face_order_is_fixed_permutation :
    ∀ cfg B vs f0s f1s f2s ve f0e f1e f2e tol it er,
      cfg.CCD_WRAPPER_WITH_RP = true →
      vertexFaceCCD cfg B vs f0s f1s f2s ve f0e f1e f2e ROOT_PARITY tol it er =
        guardFail ROOT_PARITY
          ((B.rootparity_run_test vs (rootParityFacePerm f0s f1s f2s).1
              (rootParityFacePerm f0s f1s f2s).2.1
              (rootParityFacePerm f0s f1s f2s).2.2 ve
              (rootParityFacePerm f0e f1e f2e).1
              (rootParityFacePerm f0e f1e f2e).2.1
              (rootParityFacePerm f0e f1e f2e).2.2 false).map
            (fun b => (b, []))) := by
  intro cfg B vs f0s f1s f2s ve f0e f1e f2e tol it er h
  simp [vertexFaceCCD, vertexFaceCCDBody, rootParityFacePerm, h]

/-- Closed witness for C8 at a concrete build and backend record. -/
theorem root_parity_face_order_is_fixed_permutation_witness :
    allOnConfig.CCD_WRAPPER_WITH_RP = true
    ∧ vertexFaceCCD allOnConfig (constBackends (.ok false) (.ok (false, 0)))
        origin origin origin origin origin origin origin origin ROOT_PARITY
        1 1 origin =
      guardFail ROOT_PARITY
        (((constBackends (.ok false) (.ok (false, 0))).rootparity_run_test
            origin (rootParityFacePerm origin origin origin).1
            (rootParityFacePerm origin origin origin).2.1
            (rootParityFacePerm origin origin origin).2.2 origin
            (rootParityFacePerm origin origin origin).1
            (rootParityFacePerm origin origin origin).2.1
            (rootParityFacePerm origin origin origin).2.2 false).map
          (fun b => (b, []))) := by
  refine ⟨rfl, ?_⟩
  exact root_parity_face_order_is_fixed_permutation allOnConfig
    (constBackends (.ok false) (.ok (false, 0))) origin origin origin origin
    origin origin origin origin 1 1 origin rfl

lemma vertexFaceMSCCD_fst_of_disabled (cfg : BuildConfig) (B : Backends)
    (p1 p2 p3 p4 p5 p6 p7 p8 : Vec3) (mind : ℚ) (m : CCDMethod) (tol : ℚ)
    (it : Int) (er : Arr3) (h : is_method_enabled cfg m = false) :
    (vertexFaceMSCCD cfg B p1 p2 p3 p4 p5 p6 p7 p8 mind m tol it er).1 =
      true := by
  by_cases h1 : m = 1
  · subst h1
    simp [is_method_enabled] at h
    simp [vertexFaceMSCCD, vertexFaceMSCCDBody, guardFail, h]
  by_cases h11 : m = 11
  · subst h11
    simp [is_method_enabled] at h
    simp [vertexFaceMSCCD, vertexFaceMSCCDBody, guardFail, h]
  · simp [vertexFaceMSCCD, vertexFaceMSCCDBody, guardFail, h1, h11]

lemma edgeEdgeMSCCD_fst_of_disabled (cfg : BuildConfig) (B : Backends)
    (p1 p2 p3 p4 p5 p6 p7 p8 : Vec3) (mind : ℚ) (m : CCDMethod) (tol : ℚ)
    (it : Int) (er : Arr3) (h : is_method_enabled cfg m = false) :
    (edgeEdgeMSCCD cfg B p1 p2 p3 p4 p5 p6 p7 p8 mind m tol it er).1 =
      true := by
  by_cases h1 : m = 1
  · subst h1
    simp [is_method_enabled] at h
    simp [edgeEdgeMSCCD, edgeEdgeMSCCDBody, guardFail, h]
  by_cases h11 : m = 11
  · subst h11
    simp [is_method_enabled] at h
    simp [edgeEdgeMSCCD, edgeEdgeMSCCDBody, guardFail, h]
  · simp [edgeEdgeMSCCD, edgeEdgeMSCCDBody, guardFail, h1, h11]

lemma vertexFaceCCD_fst_of_disabled (cfg : BuildConfig) (B : Backends)
    (p1 p2 p3 p4 p5 p6 p7 p8 : Vec3) (m : CCDMethod) (tol : ℚ) (it : Int)
    (er : Arr3) (h : is_method_enabled cfg m = false) :
    (vertexFaceCCD cfg B p1 p2 p3 p4 p5 p6 p7 p8 m tol it er).1 = true := by
  by_cases h0 : m = 0
  · subst h0
    simp [is_method_enabled] at h
    simp [vertexFaceCCD, vertexFaceCCDBody, guardFail, h]
  by_cases h1 : m = 1
  · subst h1
    simp [is_method_enabled] at h
    simp [vertexFaceCCD, vertexFaceCCDBody, guardFail, h]
  by_cases h2 : m = 2
  · subst h2
    simp [is_method_enabled] at h
    simp [vertexFaceCCD, vertexFaceCCDBody, guardFail, h]
  by_cases h3 : m = 3
  · subst h3
    simp [is_method_enabled] at h
    simp [vertexFaceCCD, vertexFaceCCDBody, guardFail, h]
  by_cases h4 : m = 4
  · subst h4
    simp [is_method_enabled] at h
    simp [vertexFaceCCD, vertexFaceCCDBody, guardFail, h]
  by_cases h5 : m = 5
  · subst h5
    simp [is_method_enabled] at h
    simp [vertexFaceCCD, vertexFaceCCDBody, guardFail, h]
  by_cases h6 : m = 6
  · subst h6
    simp [is_method_enabled] at h
    simp [vertexFaceCCD, vertexFaceCCDBody, guardFail, h]
  by_cases h7 : m = 7
  · subst h7
    simp [is_method_enabled] at h
    simp [vertexFaceCCD, vertexFaceCCDBody, guardFail, h]
  by_cases h8 : m = 8
  · subst h8
    simp [is_method_enabled] at h
    simp [vertexFaceCCD, vertexFaceCCDBody, guardFail, h]
  by_cases h9 : m = 9
  · subst h9
    simp [is_method_enabled] at h
    simp [vertexFaceCCD, vertexFaceCCDBody, guardFail, h]
  by_cases h10 : m = 10
  · subst h10
    simp [is_method_enabled] at h
    simp [vertexFaceCCD, vertexFaceCCDBody, guardFail, h]
  by_cases h11 : m = 11
  · subst h11
    simp [is_method_enabled] at h
    simp [vertexFaceCCD, vertexFaceCCDBody, vertexFaceMSCCD,
      vertexFaceMSCCDBody, guardFail, h]
  · simp [vertexFaceCCD, vertexFaceCCDBody, guardFail, h0, h1, h2, h3, h4,
      h5, h6, h7, h8, h9, h10, h11]

lemma edgeEdgeCCD_fst_of_disabled (cfg : BuildConfig) (B : Backends)
    (p1 p2 p3 p4 p5 p6 p7 p8 : Vec3) (m : CCDMethod) (tol : ℚ) (it : Int)
    (er : Arr3) (h : is_method_enabled cfg m = false) :
    (edgeEdgeCCD cfg B p1 p2 p3 p4 p5 p6 p7 p8 m tol it er).1 = true := by
  by_cases h0 : m = 0
  · subst h0
    simp [is_method_enabled] at h
    simp [edgeEdgeCCD, edgeEdgeCCDBody, guardFail, h]
  by_cases h1 : m = 1
  · subst h1
    simp [is_method_enabled] at h
    simp [edgeEdgeCCD, edgeEdgeCCDBody, guardFail, h]
  by_cases h2 : m = 2
  · subst h2
    simp [is_method_enabled] at h
    simp [edgeEdgeCCD, edgeEdgeCCDBody, guardFail, h]
  by_cases h3 : m = 3
  · subst h3
    simp [is_method_enabled] at h
    simp [edgeEdgeCCD, edgeEdgeCCDBody, guardFail, h]
  by_cases h4 : m = 4
  · subst h4
    simp [is_method_enabled] at h
    simp [edgeEdgeCCD, edgeEdgeCCDBody, guardFail, h]
  by_cases h5 : m = 5
  · subst h5
    simp [is_method_enabled] at h
    simp [edgeEdgeCCD, edgeEdgeCCDBody, guardFail, h]
  by_cases h6 : m = 6
  · subst h6
    simp [is_method_enabled] at h
    simp [edgeEdgeCCD, edgeEdgeCCDBody, guardFail, h]
  by_cases h7 : m = 7
  · subst h7
    simp [is_method_enabled] at h
    simp [edgeEdgeCCD, edgeEdgeCCDBody, guardFail, h]
  by_cases h8 : m = 8
  · subst h8
    simp [is_method_enabled] at h
    simp [edgeEdgeCCD, edgeEdgeCCDBody, guardFail, h]
  by_cases h9 : m = 9
  · subst h9
    simp [is_method_enabled] at h
    simp [edgeEdgeCCD, edgeEdgeCCDBody, guardFail, h]
  by_cases h10 : m = 10
  · subst h10
    simp [is_method_enabled] at h
    simp [edgeEdgeCCD, edgeEdgeCCDBody, guardFail, h]
  by_cases h11 : m = 11
  · subst h11
    simp [is_method_enabled] at h
    simp [edgeEdgeCCD, edgeEdgeCCDBody, edgeEdgeMSCCD, edgeEdgeMSCCDBody,
      guardFail, h]
  · simp [edgeEdgeCCD, edgeEdgeCCDBody, guardFail, h0, h1, h2, h3, h4, h5,
      h6, h7, h8, h9, h10, h11]

lemma vertexFaceMSCCDF_fst_of_disabled (cfg : BuildConfig) (B : BackendsF)
    (p1 p2 p3 p4 p5 p6 p7 p8 : Vec3) (mind : ℚ) (m : CCDMethod) (tol : ℚ)
    (it : Int) (er : Arr3) (h : is_method_enabled cfg m = false) :
    (vertexFaceMSCCDF cfg B p1 p2 p3 p4 p5 p6 p7 p8 mind m tol it er).1 =
      true := by
  by_cases h11 : m = 11
  · subst h11
    simp [is_method_enabled] at h
    simp [vertexFaceMSCCDF, vertexFaceMSCCDBodyF, guardFail, h]
  · simp [vertexFaceMSCCDF, vertexFaceMSCCDBodyF, guardFail, h11]

lemma edgeEdgeMSCCDF_fst_of_disabled (cfg : BuildConfig) (B : BackendsF)
    (p1 p2 p3 p4 p5 p6 p7 p8 : Vec3) (mind : ℚ) (m : CCDMethod) (tol : ℚ)
    (it : Int) (er : Arr3) (h : is_method_enabled cfg m = false) :
    (edgeEdgeMSCCDF cfg B p1 p2 p3 p4 p5 p6 p7 p8 mind m tol it er).1 =
      true := by
  by_cases h11 : m = 11
  · subst h11
    simp [is_method_enabled] at h
    simp [edgeEdgeMSCCDF, edgeEdgeMSCCDBodyF, guardFail, h]
  · simp [edgeEdgeMSCCDF, edgeEdgeMSCCDBodyF, guardFail, h11]

/-- C5 counterexample: ROOT_PARITY is disabled in the all-off build, yet the
single-precision `vertexFaceCCD` entry point neither returns `true` nor
handles the fault — it raises the uncaught "Unimplemented" throw (the
`.error` value), because it alone has no try/catch.  So "invoking any
dispatcher entry point with a disabled method returns true and never raises
an unhandled fault" fails on this entry point. -/
theorem float_vertexFace_unhandled_fault_cex :
    is_method_enabled allOffConfig ROOT_PARITY = false
    ∧ vertexFaceCCDF allOffConfig (constBackendsF (.ok (false, 0))) origin
        origin origin origin origin origin origin origin ROOT_PARITY 1 1
        origin = .error (.msg "Unimplemented") :=
  ⟨rfl, rfl⟩

/-- C5 as amended: if `is_method_enabled cfg m = false` then every
double-precision entry point, and the single-precision `edgeEdgeCCD`,
`vertexFaceMSCCD` and `edgeEdgeMSCCD`, return collision = true without any
unhandled fault; the single-precision `vertexFaceCCD` is the exception — for
a disabled method other than TIGHT_INCLUSION it raises the uncaught
"Unimplemented" throw instead. -/
theorem disabled_method_returns_conservative_true :
    ∀ cfg m, is_method_enabled cfg m = false →
      (∀ B p1 p2 p3 p4 p5 p6 p7 p8 tol it er,
          (vertexFaceCCD cfg B p1 p2 p3 p4 p5 p6 p7 p8 m tol it er :
            Bool × List Diag).1 = true)
      ∧ (∀ B p1 p2 p3 p4 p5 p6 p7 p8 tol it er,
          (edgeEdgeCCD cfg B p1 p2 p3 p4 p5 p6 p7 p8 m tol it er :
            Bool × List Diag).1 = true)
      ∧ (∀ B p1 p2 p3 p4 p5 p6 p7 p8 mind tol it er,
          (vertexFaceMSCCD cfg B p1 p2 p3 p4 p5 p6 p7 p8 mind m tol it er :
            Bool × List Diag).1 = true)
      ∧ (∀ B p1 p2 p3 p4 p5 p6 p7 p8 mind tol it er,
          (edgeEdgeMSCCD cfg B p1 p2 p3 p4 p5 p6 p7 p8 mind m tol it er :
            Bool × List Diag).1 = true)
      ∧ (∀ Bf p1 p2 p3 p4 p5 p6 p7 p8 mind tol it er,
          (vertexFaceMSCCDF cfg Bf p1 p2 p3 p4 p5 p6 p7 p8 mind m tol it er :
            Bool × List Diag).1 = true)
      ∧ (∀ Bf p1 p2 p3 p4 p5 p6 p7 p8 mind tol it er,
          (edgeEdgeMSCCDF cfg Bf p1 p2 p3 p4 p5 p6 p7 p8 mind m tol it er :
            Bool × List Diag).1 = true)
      ∧ (∀ Bf p1 p2 p3 p4 p5 p6 p7 p8 tol it er, ∃ ds,
          edgeEdgeCCDF cfg Bf p1 p2 p3 p4 p5 p6 p7 p8 m tol it er =
            .ok (true, ds))
      ∧ (∀ Bf p1 p2 p3 p4 p5 p6 p7 p8 tol it er, m ≠ TIGHT_INCLUSION →
          vertexFaceCCDF cfg Bf p1 p2 p3 p4 p5 p6 p7 p8 m tol it er =
            .error (.msg "Unimplemented")) := by
  intro cfg m h
  refine ⟨?_, ?_, ?_, ?_, ?_, ?_, ?_, ?_⟩
  · intro B p1 p2 p3 p4 p5 p6 p7 p8 tol it er
    exact vertexFaceCCD_fst_of_disabled cfg B p1 p2 p3 p4 p5 p6 p7 p8 m tol
      it er h
  · intro B p1 p2 p3 p4 p5 p6 p7 p8 tol it er
    exact edgeEdgeCCD_fst_of_disabled cfg B p1 p2 p3 p4 p5 p6 p7 p8 m tol
      it er h
  · intro B p1 p2 p3 p4 p5 p6 p7 p8 mind tol it er
    exact vertexFaceMSCCD_fst_of_disabled cfg B p1 p2 p3 p4 p5 p6 p7 p8 mind
      m tol it er h
  · intro B p1 p2 p3 p4 p5 p6 p7 p8 mind tol it er
    exact edgeEdgeMSCCD_fst_of_disabled cfg B p1 p2 p3 p4 p5 p6 p7 p8 mind
      m tol it er h
  · intro Bf p1 p2 p3 p4 p5 p6 p7 p8 mind tol it er
    exact vertexFaceMSCCDF_fst_of_disabled cfg Bf p1 p2 p3 p4 p5 p6 p7 p8
      mind m tol it er h
  · intro Bf p1 p2 p3 p4 p5 p6 p7 p8 mind tol it er
    exact edgeEdgeMSCCDF_fst_of_disabled cfg Bf p1 p2 p3 p4 p5 p6 p7 p8 mind
      m tol it er h
  · intro Bf p1 p2 p3 p4 p5 p6 p7 p8 tol it er
    refine ⟨(edgeEdgeMSCCDF cfg Bf p1 p2 p3 p4 p5 p6 p7 p8 0 m tol it er).2,
      ?_⟩
    have hh := edgeEdgeMSCCDF_fst_of_disabled cfg Bf p1 p2 p3 p4 p5 p6 p7 p8
      0 m tol it er h
    unfold edgeEdgeCCDF
    rw [← hh]
  · intro Bf p1 p2 p3 p4 p5 p6 p7 p8 tol it er hne
    simp only [TIGHT_INCLUSION] at hne
    simp [vertexFaceCCDF, hne]

/-- Closed witness for C5 (amended) at the all-off build and the disabled
method ROOT_PARITY. -/
theorem disabled_method_returns_conservative_true_witness :
    is_method_enabled allOffConfig ROOT_PARITY = false
    ∧ (vertexFaceCCD allOffConfig (constBackends (.ok false) (.ok (false, 0)))
        origin origin origin origin origin origin origin origin ROOT_PARITY
        1 1 origin).1 = true
    ∧ (edgeEdgeMSCCDF allOffConfig (constBackendsF (.ok (false, 0))) origin
        origin origin origin origin origin origin origin 0 ROOT_PARITY 1 1
        origin).1 = true
    ∧ vertexFaceCCDF allOffConfig (constBackendsF (.ok (false, 0))) origin
        origin origin origin origin origin origin origin ROOT_PARITY 1 1
        origin = .error (.msg "Unimplemented") := by
  refine ⟨rfl, ?_, ?_, ?_⟩
  · exact (disabled_method_returns_conservative_true allOffConfig ROOT_PARITY
      rfl).1 (constBackends (.ok false) (.ok (false, 0))) origin origin
      origin origin origin origin origin origin 1 1 origin
  · exact (disabled_method_returns_conservative_true allOffConfig ROOT_PARITY
      rfl).2.2.2.2.2.1 (constBackendsF (.ok (false, 0))) origin origin origin
      origin origin origin origin origin 0 1 1 origin
  · exact (disabled_method_returns_conservative_true allOffConfig ROOT_PARITY
      rfl).2.2.2.2.2.2.2 (constBackendsF (.ok (false, 0))) origin origin
      origin origin origin origin origin origin 1 1 origin (by decide)

/-- C4 counterexample: at single precision with a non-TIGHT_INCLUSION method
(ROOT_PARITY), `edgeEdgeCCD` does not fail fast with "Unimplemented": it
silently converts the request to the conservative collision = true (with an
InvalidMethod diagnostic), via its unconditional forward to the float
minimum-separation dispatcher. -/
theorem float_edgeEdge_silently_conservative_cex :
    edgeEdgeCCDF allOnConfig (constBackendsF (.ok (false, 0))) origin origin
        origin origin origin origin origin origin ROOT_PARITY 1 1 origin =
      .ok (true, [⟨some "RootParity", "Invalid Minimum Separation CCDMethod"⟩])
    ∧ edgeEdgeCCDF allOnConfig (constBackendsF (.ok (false, 0))) origin origin
        origin origin origin origin origin origin ROOT_PARITY 1 1 origin ≠
      .error (.msg "Unimplemented") := by
  refine ⟨rfl, ?_⟩
  intro hcontra
  have h2 : (Except.ok (true,
      [(⟨some "RootParity", "Invalid Minimum Separation CCDMethod"⟩ : Diag)]) :
      Except CppExc (Bool × List Diag)) = .error (.msg "Unimplemented") :=
    hcontra
  exact Except.noConfusion h2

/-- C4 as amended: only the single-precision `vertexFaceCCD` fails fast with
a distinct, caller-detectable "Unimplemented" failure for methods other than
TIGHT_INCLUSION.  The single-precision `edgeEdgeCCD` and both
single-precision minimum-separation entry points instead convert such a
request to the conservative collision = true with an InvalidMethod
diagnostic.  (No entry point promotes to higher precision: the float
dispatchers only ever consult the float backend record.) -/
theorem float_non_ti_unimplemented_only_vertexFace :
    (∀ cfg Bf p1 p2 p3 p4 p5 p6 p7 p8 m tol it er, m ≠ TIGHT_INCLUSION →
        vertexFaceCCDF cfg Bf p1 p2 p3 p4 p5 p6 p7 p8 m tol it er =
          .error (.msg "Unimplemented"))
    ∧ (∀ cfg Bf p1 p2 p3 p4 p5 p6 p7 p8 m tol it er, m ≠ TIGHT_INCLUSION →
        edgeEdgeCCDF cfg Bf p1 p2 p3 p4 p5 p6 p7 p8 m tol it er =
          .ok (true, [mkDiag m (.msg "Invalid Minimum Separation CCDMethod")]))
    ∧ (∀ cfg Bf p1 p2 p3 p4 p5 p6 p7 p8 mind m tol it er,
        m ≠ TIGHT_INCLUSION →
        vertexFaceMSCCDF cfg Bf p1 p2 p3 p4 p5 p6 p7 p8 mind m tol it er =
          (true, [mkDiag m (.msg "Invalid Minimum Separation CCDMethod")]))
    ∧ (∀ cfg Bf p1 p2 p3 p4 p5 p6 p7 p8 mind m tol it er,
        m ≠ TIGHT_INCLUSION →
        edgeEdgeMSCCDF cfg Bf p1 p2 p3 p4 p5 p6 p7 p8 mind m tol it er =
          (true, [mkDiag m (.msg "Invalid Minimum Separation CCDMethod")])) := by
  refine ⟨?_, ?_, ?_, ?_⟩
  · intro cfg Bf p1 p2 p3 p4 p5 p6 p7 p8 m tol it er hne
    simp only [TIGHT_INCLUSION] at hne
    simp [vertexFaceCCDF, hne]
  · intro cfg Bf p1 p2 p3 p4 p5 p6 p7 p8 m tol it er hne
    simp only [TIGHT_INCLUSION] at hne
    simp [edgeEdgeCCDF, edgeEdgeMSCCDF, edgeEdgeMSCCDBodyF, guardFail, hne]
  · intro cfg Bf p1 p2 p3 p4 p5 p6 p7 p8 mind m tol it er hne
    simp only [TIGHT_INCLUSION] at hne
    simp [vertexFaceMSCCDF, vertexFaceMSCCDBodyF, guardFail, hne]
  · intro cfg Bf p1 p2 p3 p4 p5 p6 p7 p8 mind m tol it er hne
    simp only [TIGHT_INCLUSION] at hne
    simp [edgeEdgeMSCCDF, edgeEdgeMSCCDBodyF, guardFail, hne]

/-- Closed witness for C4 (amended) at the concrete method ROOT_PARITY. -/
theorem float_non_ti_unimplemented_only_vertexFace_witness :
    ROOT_PARITY ≠ TIGHT_INCLUSION
    ∧ vertexFaceCCDF allOnConfig (constBackendsF (.ok (false, 0))) origin
        origin origin origin origin origin origin origin ROOT_PARITY 1 1
        origin = .error (.msg "Unimplemented")
    ∧ edgeEdgeCCDF allOnConfig (constBackendsF (.ok (false, 0))) origin
        origin origin origin origin origin origin origin ROOT_PARITY 1 1
        origin =
      .ok (true,
        [mkDiag ROOT_PARITY (.msg "Invalid Minimum Separation CCDMethod")]) := by
  refine ⟨by decide, ?_, ?_⟩
  · exact float_non_ti_unimplemented_only_vertexFace.1 allOnConfig
      (constBackendsF (.ok (false, 0))) origin origin origin origin origin
      origin origin origin ROOT_PARITY 1 1 origin (by decide)
  · exact float_non_ti_unimplemented_only_vertexFace.2.1 allOnConfig
      (constBackendsF (.ok (false, 0))) origin origin origin origin origin
      origin origin origin ROOT_PARITY 1 1 origin (by decide)

/-- C7: for the out-of-enumeration selector NUM_CCD_METHODS (= 12) every
double-precision entry point does return the conservative `true` — but the
diagnostic it emits is produced by indexing `method_names[method]` one past
the end of the 12-entry name table: the lookup `method_names.get? 12` is
`none`, i.e. the C++ code performs an out-of-bounds read while formatting
the diagnostic, and the record cannot name the requested method.  This
contradicts the claim's "without any out-of-bounds access ... while
producing that diagnostic": the claim describes the intended behaviour and
the code's name-table indexing is the slip. -/
theorem invalid_selector_diag_name_lookup_oob :
    method_names.length = 12
    ∧ method_names.get? NUM_CCD_METHODS = none
    ∧ vertexFaceCCD allOnConfig (constBackends (.ok false) (.ok (false, 0)))
        origin origin origin origin origin origin origin origin
        NUM_CCD_METHODS 1 1 origin = (true, [⟨none, "Invalid CCDMethod"⟩])
    ∧ edgeEdgeCCD allOnConfig (constBackends (.ok false) (.ok (false, 0)))
        origin origin origin origin origin origin origin origin
        NUM_CCD_METHODS 1 1 origin = (true, [⟨none, "Invalid CCDMethod"⟩])
    ∧ vertexFaceMSCCD allOnConfig (constBackends (.ok false) (.ok (false, 0)))
        origin origin origin origin origin origin origin origin 0
        NUM_CCD_METHODS 1 1 origin =
      (true, [⟨none, "Invalid Minimum Separation CCDMethod"⟩])
    ∧ edgeEdgeMSCCD allOnConfig (constBackends (.ok false) (.ok (false, 0)))
        origin origin origin origin origin origin origin origin 0
        NUM_CCD_METHODS 1 1 origin =
      (true, [⟨none, "Invalid Minimum Separation CCDMethod"⟩]) :=
  ⟨rfl, rfl, rfl, rfl, rfl, rfl⟩

end ccd
